import Mathlib

set_option maxRecDepth 40000

/-!
# Verification of the goat-core isochrone pipeline

Shallow embedding of the isochrone computation pipeline of the repository
(`src/crud/crud_isochrone.py`, `src/schemas/active_mobility.py`), together
with theorems settling the frozen specification claims.

External collaborators (the PostGIS database, the HTTP transport, the region
mapping table) are modelled as oracle functions passed to the embedded
pipeline; the control flow, constants and data flow are translated from the
Python source.
-/

namespace GoatCore

/-- A geographic starting point (latitude, longitude).  Coordinate arithmetic
happens only in the external PostGIS collaborator, so integer coordinates
suffice for the embedding. -/
structure Point where
  lat : Int
  lon : Int
deriving DecidableEq, Repr

/-- Result of the spatial `ST_INTERSECTS` test against the geofence table is
an oracle `Point → Bool` (the SQL in `create_layer_starting_points` counts the
points of a batch for which the test fails). -/
def countNotIntersecting (geo : Point → Bool) (pts : List Point) : Nat :=
  (pts.filter (fun p => !geo p)).length

/-- Helper for `toBatches`: structural recursion on a fuel bound so the
batching computes by kernel reduction.  With `fuel ≥ pts.length` the fuel
never runs out, since every step drops at least one point. -/
def toBatchesAux (fuel : Nat) (pts : List Point) : List (List Point) :=
  match fuel, pts with
  | _, [] => []
  | 0, _ => []
  | fuel + 1, pts => pts.take 500 :: toBatchesAux fuel (pts.drop 500)

/-- The batching of `for i in range(0, len(lat), 500): lats[i : i + 500]` in
`create_layer_starting_points` (src/crud/crud_isochrone.py lines 49-52). -/
def toBatches (pts : List Point) : List (List Point) :=
  toBatchesAux pts.length pts

/-- The geofence loop of `create_layer_starting_points`
(src/crud/crud_isochrone.py lines 48-75): per batch, count the points not
intersecting the geofence and raise `OutOfGeofenceError` with that batch's
count as soon as it is positive. -/
def validateBatches (geo : Point → Bool) : List (List Point) → Except Nat Unit
  | [] => .ok ()
  | b :: bs =>
    let cnt := countNotIntersecting geo b
    if 0 < cnt then .error cnt else validateBatches geo bs

/-- The geofence-validation part of `create_layer_starting_points`: split the
literal starting points into batches of 500 and run the per-batch check. -/
def validateStartingPoints (geo : Point → Bool) (pts : List Point) :
    Except Nat Unit :=
  validateBatches geo (toBatches pts)

/-! ## Travel-cost schemas (src/schemas/active_mobility.py) -/

/-- `TravelTimeCostActiveMobility` (src/schemas/active_mobility.py lines
25-55). -/
structure TravelTimeCostActiveMobility where
  max_traveltime : Int
  steps : Int
  speed : Int
deriving DecidableEq, Repr

/-- `TravelDistanceCostActiveMobility` (src/schemas/active_mobility.py lines
59-82). -/
structure TravelDistanceCostActiveMobility where
  max_distance : Int
  steps : Int
deriving DecidableEq, Repr

/-- The `valid_num_steps` validator of `TravelTimeCostActiveMobility`
(src/schemas/active_mobility.py lines 49-55): it rejects exactly the values
above 45. -/
def valid_num_steps_time (v : Int) : Except String Int :=
  if v > 45 then
    .error "The number of steps must not exceed the maximum traveltime."
  else .ok v

/-- The `valid_num_steps` validator of `TravelDistanceCostActiveMobility`
(src/schemas/active_mobility.py lines 76-82): it rejects exactly the values
above 20000. -/
def valid_num_steps_distance (v : Int) : Except String Int :=
  if v > 20000 then
    .error "The number of steps must not exceed the maximum distance."
  else .ok v

/-- Pydantic construction of `TravelTimeCostActiveMobility`: the field bounds
`1 ≤ max_traveltime ≤ 45`, `1 ≤ speed ≤ 25` and the `valid_num_steps`
validator must all pass. -/
def mkTravelTimeCostActiveMobility (max_traveltime steps speed : Int) :
    Except String TravelTimeCostActiveMobility :=
  if ¬(1 ≤ max_traveltime ∧ max_traveltime ≤ 45) then
    .error "max_traveltime out of range"
  else
    match valid_num_steps_time steps with
    | .error e => .error e
    | .ok s =>
      if ¬(1 ≤ speed ∧ speed ≤ 25) then .error "speed out of range"
      else .ok ⟨max_traveltime, s, speed⟩

/-- Pydantic construction of `TravelDistanceCostActiveMobility`: the field
bound `50 ≤ max_distance ≤ 20000` and the `valid_num_steps` validator must
pass. -/
def mkTravelDistanceCostActiveMobility (max_distance steps : Int) :
    Except String TravelDistanceCostActiveMobility :=
  if ¬(50 ≤ max_distance ∧ max_distance ≤ 20000) then
    .error "max_distance out of range"
  else
    match valid_num_steps_distance steps with
    | .error e => .error e
    | .ok s => .ok ⟨max_distance, s⟩

/-! ## Properties of the geofence validator -/

theorem toBatchesAux_flatten (fuel : Nat) :
    ∀ pts : List Point, pts.length ≤ fuel →
      (toBatchesAux fuel pts).flatten = pts := by
  induction fuel with
  | zero =>
    intro pts hlen
    have : pts = [] := List.eq_nil_of_length_eq_zero (Nat.le_zero.mp hlen)
    subst this; rfl
  | succ fuel ih =>
    intro pts hlen
    cases pts with
    | nil => rfl
    | cons p rest =>
      show (List.take 500 (p :: rest) ::
        toBatchesAux fuel (List.drop 500 (p :: rest))).flatten = p :: rest
      have hdrop : (List.drop 500 (p :: rest)).length ≤ fuel := by
        simp only [List.length_drop, List.length_cons] at hlen ⊢
        omega
      simp only [List.flatten, List.flatten_cons]
      rw [ih _ hdrop, List.take_append_drop]

theorem toBatches_flatten (pts : List Point) : (toBatches pts).flatten = pts :=
  toBatchesAux_flatten pts.length pts le_rfl

theorem natSum_eq_zero_iff (l : List Nat) : l.sum = 0 ↔ ∀ x ∈ l, x = 0 := by
  induction l with
  | nil => simp
  | cons x xs ih =>
    simp only [List.sum_cons, List.mem_cons, Nat.add_eq_zero, ih]
    constructor
    · rintro ⟨hx, hxs⟩ y hy
      rcases hy with rfl | hy
      · exact hx
      · exact hxs y hy
    · intro h
      exact ⟨h x (Or.inl rfl), fun y hy => h y (Or.inr hy)⟩

theorem countNotIntersecting_append (geo : Point → Bool) (l₁ l₂ : List Point) :
    countNotIntersecting geo (l₁ ++ l₂) =
      countNotIntersecting geo l₁ + countNotIntersecting geo l₂ := by
  simp [countNotIntersecting, List.filter_append]

theorem countNotIntersecting_flatten (geo : Point → Bool) (bs : List (List Point)) :
    countNotIntersecting geo bs.flatten =
      (bs.map (countNotIntersecting geo)).sum := by
  induction bs with
  | nil => rfl
  | cons b bs ih => simp [List.flatten, countNotIntersecting_append, ih]

theorem validateBatches_ok_iff (geo : Point → Bool) (bs : List (List Point)) :
    validateBatches geo bs = .ok () ↔
      ∀ b ∈ bs, countNotIntersecting geo b = 0 := by
  induction bs with
  | nil => simp [validateBatches]
  | cons b bs ih =>
    simp only [validateBatches, List.mem_cons]
    by_cases h : 0 < countNotIntersecting geo b
    · simp only [if_pos h]
      constructor
      · intro hc; cases hc
      · intro hall
        have := hall b (Or.inl rfl)
        omega
    · simp only [if_neg h, ih]
      constructor
      · intro hall b' hb'
        rcases hb' with rfl | hb'
        · omega
        · exact hall b' hb'
      · intro hall b' hb'
        exact hall b' (Or.inr hb')

theorem validateBatches_error (geo : Point → Bool) (bs : List (List Point))
    (c : Nat) (h : validateBatches geo bs = .error c) :
    ∃ pre b post, bs = pre ++ b :: post ∧
      (∀ b' ∈ pre, countNotIntersecting geo b' = 0) ∧
      c = countNotIntersecting geo b ∧ 0 < c := by
  induction bs with
  | nil => simp [validateBatches] at h
  | cons b bs ih =>
    simp only [validateBatches] at h
    by_cases hb : 0 < countNotIntersecting geo b
    · rw [if_pos hb] at h
      refine ⟨[], b, bs, rfl, by simp, ?_, ?_⟩
      · cases h; rfl
      · cases h; exact hb
    · rw [if_neg hb] at h
      obtain ⟨pre, b', post, hsplit, hpre, hc, hpos⟩ := ih h
      refine ⟨b :: pre, b', post, by rw [hsplit, List.cons_append], ?_, hc, hpos⟩
      intro b'' hb''
      rcases List.mem_cons.mp hb'' with rfl | hb''
      · omega
      · exact hpre b'' hb''

/-- Concrete geofence oracle for the counterexample: a point intersects the
geofence iff its longitude is nonnegative. -/
def geoNonneg : Point → Bool := fun p => decide (0 ≤ p.lon)

/-- 501 literal starting points: one geofence violator in the first
500-point batch and one in the second batch. -/
def ptsTwoViolators : List Point :=
  ⟨0, -1⟩ :: (List.replicate 499 ⟨0, 0⟩ ++ [⟨0, -1⟩])

/-- C1, counterexample: with 501 points of which K = 2 violate the geofence,
one per 500-point batch, the validation stops at the first batch and the
raised `OutOfGeofenceError` reports 1, not the total K = 2: the scan is not
run to completion and the reported count depends on the batch boundaries. -/
theorem C1_counterexample :
    validateStartingPoints geoNonneg ptsTwoViolators = .error 1 ∧
    countNotIntersecting geoNonneg ptsTwoViolators = 2 := by
  constructor <;> rfl

theorem validateStartingPoints_spec (geo : Point → Bool) (pts : List Point) :
    (validateStartingPoints geo pts = .ok () ↔
      countNotIntersecting geo pts = 0) ∧
    (∀ c, validateStartingPoints geo pts = .error c →
      0 < c ∧ c ≤ countNotIntersecting geo pts ∧
      ∃ pre b post, toBatches pts = pre ++ b :: post ∧
        (∀ b' ∈ pre, countNotIntersecting geo b' = 0) ∧
        c = countNotIntersecting geo b) := by
  have hjoin : countNotIntersecting geo pts =
      ((toBatches pts).map (countNotIntersecting geo)).sum := by
    conv_lhs => rw [← toBatches_flatten pts]
    exact countNotIntersecting_flatten geo (toBatches pts)
  constructor
  · rw [validateStartingPoints, validateBatches_ok_iff, hjoin]
    constructor
    · intro hall
      apply List.sum_eq_zero
      intro x hx
      obtain ⟨b, hb, rfl⟩ := List.mem_map.mp hx
      exact hall b hb
    · intro hsum b hb
      have : countNotIntersecting geo b ∈
          (toBatches pts).map (countNotIntersecting geo) :=
        List.mem_map.mpr ⟨b, hb, rfl⟩
      exact (natSum_eq_zero_iff _).mp hsum _ this
  · intro c hc
    obtain ⟨pre, b, post, hsplit, hpre, hcb, hpos⟩ :=
      validateBatches_error geo (toBatches pts) c hc
    refine ⟨hpos, ?_, pre, b, post, hsplit, hpre, hcb⟩
    rw [hjoin, hsplit]
    simp only [List.map_append, List.map_cons, List.sum_append, List.sum_cons]
    omega

/-- C1, amended: geofence validation fails iff the total number K of
out-of-geofence points is positive; on failure it early-exits at the first
500-point batch containing a violating point and reports the count of
violating points in that batch only (a value in [1, K]), without scanning
the remaining batches. -/
theorem C1_geofence_validation_amended (geo : Point → Bool) (pts : List Point) :
    (validateStartingPoints geo pts = .ok () ↔
      countNotIntersecting geo pts = 0) ∧
    (∀ c, validateStartingPoints geo pts = .error c →
      0 < c ∧ c ≤ countNotIntersecting geo pts ∧
      ∃ pre b post, toBatches pts = pre ++ b :: post ∧
        (∀ b' ∈ pre, countNotIntersecting geo b' = 0) ∧
        c = countNotIntersecting geo b) :=
  validateStartingPoints_spec geo pts

/-- Witness for the amended C1 theorem at the concrete two-violator input. -/
theorem C1_amended_witness :
    0 < 1 ∧ 1 ≤ countNotIntersecting geoNonneg ptsTwoViolators ∧
    ∃ pre b post, toBatches ptsTwoViolators = pre ++ b :: post ∧
      (∀ b' ∈ pre, countNotIntersecting geoNonneg b' = 0) ∧
      1 = countNotIntersecting geoNonneg b :=
  (C1_geofence_validation_amended geoNonneg ptsTwoViolators).2 1 (by rfl)

/-- C2: the code accepts a `steps` value strictly exceeding the instance's own
cost ceiling.  `valid_num_steps` of `TravelTimeCostActiveMobility` only
rejects `steps > 45` and `valid_num_steps` of
`TravelDistanceCostActiveMobility` only rejects `steps > 20000`, so
construction with `max_traveltime = 1, steps = 2` (and with
`max_distance = 50, steps = 51`) succeeds although `steps` exceeds the
variant's ceiling — contradicting the validators' own comments and error
messages ("The number of steps must not exceed the maximum traveltime /
distance"). -/
theorem C2_steps_ceiling_code_eval :
    mkTravelTimeCostActiveMobility 1 2 5 = .ok ⟨1, 2, 5⟩ ∧ (1 : Int) < 2 ∧
    mkTravelDistanceCostActiveMobility 50 51 = .ok ⟨50, 51⟩ ∧ (50 : Int) < 51 := by
  refine ⟨by rfl, by decide, by rfl, by decide⟩

/-! ## HTTP retry loops (src/crud/crud_isochrone.py)

The HTTP transport is an oracle `resp : Nat → HttpResponse` giving the
backend's response to the attempt with python loop index `i`. -/

/-- The part of an httpx response the retry loops inspect. -/
structure HttpResponse where
  status_code : Nat
  content : List Int
  text : String

/-- Instrumentation of a retry loop: number of HTTP attempts issued, number
of inter-attempt delays, and the total seconds slept (each delay is a
`time.sleep(self.RETRY_DELAY)`). -/
structure RetryTrace where
  attempts : Nat
  delays : Nat
  sleptSeconds : Nat
deriving DecidableEq, Repr

/-- The typed domain errors of the pipeline (src/schemas/error.py, as raised
in src/crud/crud_isochrone.py). -/
inductive IsoError where
  | outOfGeofence (count : Nat)
  | routingEndpoint (msg : String)
  | r5Endpoint (msg : String)
  | r5IsochroneCompute (msg : String)
  | sqlError (msg : String)
deriving DecidableEq, Repr

/-- `CRUDIsochroneActiveMobility.__init__` (lines 137-138). -/
def NUM_RETRIES_ACTIVE_MOBILITY : Nat := 5
def RETRY_DELAY_ACTIVE_MOBILITY : Nat := 2

/-- `CRUDIsochronePT.__init__` (lines 252-253). -/
def NUM_RETRIES_PT : Nat := 10
def RETRY_DELAY_PT : Nat := 2

/-- The retry loop of `CRUDIsochroneActiveMobility.isochrone` (lines
192-211): `202` retries after a fixed delay (raising a timeout when it is the
last attempt), `201` succeeds, anything else raises `response.text`.  `fuel`
is `numRetries - i`, making the recursion structural; a fall-through without
`break` (possible only with zero fuel at entry, i.e. a zero retry budget)
just leaves the loop and the surrounding code proceeds. -/
def goatRoutingLoop (resp : Nat → HttpResponse) (numRetries : Nat) :
    Nat → Nat → RetryTrace → Except String Unit × RetryTrace
  | 0, _, t => (.ok (), t)
  | fuel + 1, i, t =>
    let r := resp i
    let t' : RetryTrace := { t with attempts := t.attempts + 1 }
    if r.status_code = 202 then
      if i = numRetries - 1 then
        (.error "GOAT routing endpoint took too long to process request.", t')
      else
        goatRoutingLoop resp numRetries fuel (i + 1)
          { t' with delays := t'.delays + 1,
                    sleptSeconds := t'.sleptSeconds + RETRY_DELAY_ACTIVE_MOBILITY }
    else if r.status_code = 201 then (.ok (), t')
    else (.error r.text, t')

/-- The `try`/`except` around the active-mobility retry loop (lines 190-215):
any exception is wrapped into a `RoutingEndpointError` carrying the proximate
cause. -/
def goatRoutingCall (resp : Nat → HttpResponse) :
    Except IsoError Unit × RetryTrace :=
  match goatRoutingLoop resp NUM_RETRIES_ACTIVE_MOBILITY
      NUM_RETRIES_ACTIVE_MOBILITY 0 ⟨0, 0, 0⟩ with
  | (.error e, t) =>
    (.error (.routingEndpoint ("Error while calling the routing endpoint: " ++ e)), t)
  | (.ok (), t) => (.ok (), t)

/-- The retry loop of `CRUDIsochronePT.isochrone` (lines 389-409): `202`
retries after a fixed delay (raising a timeout when it is the last attempt),
`200` stores the binary payload `response.content` and breaks, anything else
raises `response.text`.  A fall-through without `break` leaves `result` as
`None`, modelled by `none`. -/
def r5Loop (resp : Nat → HttpResponse) (numRetries : Nat) :
    Nat → Nat → RetryTrace → Except String (Option (List Int)) × RetryTrace
  | 0, _, t => (.ok none, t)
  | fuel + 1, i, t =>
    let r := resp i
    let t' : RetryTrace := { t with attempts := t.attempts + 1 }
    if r.status_code = 202 then
      if i = numRetries - 1 then
        (.error "R5 engine took too long to process request.", t')
      else
        r5Loop resp numRetries fuel (i + 1)
          { t' with delays := t'.delays + 1,
                    sleptSeconds := t'.sleptSeconds + RETRY_DELAY_PT }
    else if r.status_code = 200 then (.ok (some r.content), t')
    else (.error r.text, t')

/-- The `try`/`except` around the R5 retry loop (lines 387-411): any
exception is wrapped into an `R5EndpointError` carrying the proximate
cause. -/
def r5Call (resp : Nat → HttpResponse) :
    Except IsoError (Option (List Int)) × RetryTrace :=
  match r5Loop resp NUM_RETRIES_PT NUM_RETRIES_PT 0 ⟨0, 0, 0⟩ with
  | (.error e, t) =>
    (.error (.r5Endpoint ("Error while calling the R5 endpoint: " ++ e)), t)
  | (.ok r, t) => (.ok r, t)

/-! ## Properties of the retry loops -/

theorem r5Loop_all202 (resp : Nat → HttpResponse) (n : Nat)
    (h : ∀ j, j < n → (resp j).status_code = 202) :
    ∀ fuel i t, fuel + i = n → i < n →
      r5Loop resp n fuel i t =
        (.error "R5 engine took too long to process request.",
         ⟨t.attempts + fuel, t.delays + (fuel - 1),
          t.sleptSeconds + (fuel - 1) * RETRY_DELAY_PT⟩) := by
  intro fuel
  induction fuel with
  | zero => intro i t hfi hi; omega
  | succ fuel ih =>
    intro i t hfi hi
    simp only [r5Loop]
    rw [if_pos (h i hi)]
    by_cases hlast : i = n - 1
    · rw [if_pos hlast]
      have hfuel0 : fuel = 0 := by omega
      subst hfuel0
      simp
    · rw [if_neg hlast]
      rw [ih (i + 1) _ (by omega) (by omega)]
      have h1 : t.attempts + 1 + fuel = t.attempts + (fuel + 1) := by omega
      have h2 : t.delays + 1 + (fuel - 1) = t.delays + (fuel + 1 - 1) := by omega
      have h3 : t.sleptSeconds + RETRY_DELAY_PT + (fuel - 1) * RETRY_DELAY_PT =
          t.sleptSeconds + (fuel + 1 - 1) * RETRY_DELAY_PT := by
        simp only [RETRY_DELAY_PT]
        omega
      rw [h1, h2, h3]

theorem r5Loop_skip202 (resp : Nat → HttpResponse) (n : Nat) :
    ∀ fuel i t k, fuel + i = n → i ≤ k → k < n →
      (∀ j, i ≤ j → j < k → (resp j).status_code = 202) →
      r5Loop resp n fuel i t =
        r5Loop resp n (fuel - (k - i)) k
          ⟨t.attempts + (k - i), t.delays + (k - i),
           t.sleptSeconds + (k - i) * RETRY_DELAY_PT⟩ := by
  intro fuel
  induction fuel with
  | zero => intro i t k hfi hik hk h202; omega
  | succ fuel ih =>
    intro i t k hfi hik hk h202
    by_cases hik' : i = k
    · subst hik'
      simp
    · have hlt : i < k := by omega
      conv_lhs => simp only [r5Loop]
      rw [if_pos (h202 i le_rfl hlt), if_neg (show ¬i = n - 1 by omega)]
      rw [ih (i + 1) _ k (by omega) (by omega) hk
        (fun j hj hjk => h202 j (by omega) hjk)]
      have h0 : fuel - (k - (i + 1)) = fuel + 1 - (k - i) := by omega
      have h1 : t.attempts + 1 + (k - (i + 1)) = t.attempts + (k - i) := by omega
      have h2 : t.delays + 1 + (k - (i + 1)) = t.delays + (k - i) := by omega
      have h3 : t.sleptSeconds + RETRY_DELAY_PT + (k - (i + 1)) * RETRY_DELAY_PT =
          t.sleptSeconds + (k - i) * RETRY_DELAY_PT := by
        simp only [RETRY_DELAY_PT]
        omega
      rw [h0, h1, h2, h3]

theorem r5Call_all202 (resp : Nat → HttpResponse)
    (h : ∀ i, i < 10 → (resp i).status_code = 202) :
    r5Call resp =
      (.error (.r5Endpoint
        "Error while calling the R5 endpoint: R5 engine took too long to process request."),
       ⟨10, 9, 18⟩) := by
  have := r5Loop_all202 resp NUM_RETRIES_PT
    (fun j hj => h j hj) NUM_RETRIES_PT 0 ⟨0, 0, 0⟩ rfl (by decide)
  rw [r5Call, this]
  rfl

theorem r5Call_first200 (resp : Nat → HttpResponse) (k : Nat) (hk : k < 10)
    (h202 : ∀ i, i < k → (resp i).status_code = 202)
    (h200 : (resp k).status_code = 200) :
    r5Call resp = (.ok (some (resp k).content), ⟨k + 1, k, k * 2⟩) := by
  have hskip := r5Loop_skip202 resp NUM_RETRIES_PT NUM_RETRIES_PT 0 ⟨0, 0, 0⟩ k
    rfl (Nat.zero_le k) hk (fun j _ hjk => h202 j hjk)
  obtain ⟨f, hf⟩ : ∃ f, NUM_RETRIES_PT - (k - 0) = f + 1 :=
    ⟨NUM_RETRIES_PT - (k - 0) - 1, by simp only [NUM_RETRIES_PT]; omega⟩
  rw [r5Call, hskip, hf]
  simp only [r5Loop]
  rw [if_neg (by rw [h200]; decide), if_pos h200]
  have hki : k - 0 = k := by omega
  simp only [hki, Nat.zero_add]
  rfl

theorem r5Call_firstError (resp : Nat → HttpResponse) (k : Nat) (hk : k < 10)
    (h202 : ∀ i, i < k → (resp i).status_code = 202)
    (hn202 : (resp k).status_code ≠ 202) (hn200 : (resp k).status_code ≠ 200) :
    r5Call resp =
      (.error (.r5Endpoint
        ("Error while calling the R5 endpoint: " ++ (resp k).text)),
       ⟨k + 1, k, k * 2⟩) := by
  have hskip := r5Loop_skip202 resp NUM_RETRIES_PT NUM_RETRIES_PT 0 ⟨0, 0, 0⟩ k
    rfl (Nat.zero_le k) hk (fun j _ hjk => h202 j hjk)
  obtain ⟨f, hf⟩ : ∃ f, NUM_RETRIES_PT - (k - 0) = f + 1 :=
    ⟨NUM_RETRIES_PT - (k - 0) - 1, by simp only [NUM_RETRIES_PT]; omega⟩
  rw [r5Call, hskip, hf]
  simp only [r5Loop]
  rw [if_neg hn202, if_neg hn200]
  have hki : k - 0 = k := by omega
  simp only [hki, Nat.zero_add]
  rfl

/-- C3: against the analysis engine (R5), a `202` on every attempt makes the
client issue exactly 10 HTTP attempts separated by 9 fixed 2-second delays
and then fail with an `R5EndpointError` carrying the timeout message; a `200`
stops the retries with the binary payload as the result; any other status
fails immediately, wrapped in the same error type. -/
theorem C3_r5_endpoint_retry (resp : Nat → HttpResponse) :
    ((∀ i, i < 10 → (resp i).status_code = 202) →
      r5Call resp =
        (.error (.r5Endpoint
          "Error while calling the R5 endpoint: R5 engine took too long to process request."),
         ⟨10, 9, 18⟩)) ∧
    (∀ k, k < 10 → (∀ i, i < k → (resp i).status_code = 202) →
      (resp k).status_code = 200 →
      r5Call resp = (.ok (some (resp k).content), ⟨k + 1, k, k * 2⟩)) ∧
    (∀ k, k < 10 → (∀ i, i < k → (resp i).status_code = 202) →
      (resp k).status_code ≠ 202 → (resp k).status_code ≠ 200 →
      r5Call resp =
        (.error (.r5Endpoint
          ("Error while calling the R5 endpoint: " ++ (resp k).text)),
         ⟨k + 1, k, k * 2⟩)) :=
  ⟨fun h => r5Call_all202 resp h,
   fun k hk h202 h200 => r5Call_first200 resp k hk h202 h200,
   fun k hk h202 hn202 hn200 => r5Call_firstError resp k hk h202 hn202 hn200⟩

theorem goatRoutingLoop_all202 (resp : Nat → HttpResponse) (n : Nat)
    (h : ∀ j, j < n → (resp j).status_code = 202) :
    ∀ fuel i t, fuel + i = n → i < n →
      goatRoutingLoop resp n fuel i t =
        (.error "GOAT routing endpoint took too long to process request.",
         ⟨t.attempts + fuel, t.delays + (fuel - 1),
          t.sleptSeconds + (fuel - 1) * RETRY_DELAY_ACTIVE_MOBILITY⟩) := by
  intro fuel
  induction fuel with
  | zero => intro i t hfi hi; omega
  | succ fuel ih =>
    intro i t hfi hi
    simp only [goatRoutingLoop]
    rw [if_pos (h i hi)]
    by_cases hlast : i = n - 1
    · rw [if_pos hlast]
      have hfuel0 : fuel = 0 := by omega
      subst hfuel0
      simp
    · rw [if_neg hlast]
      rw [ih (i + 1) _ (by omega) (by omega)]
      have h1 : t.attempts + 1 + fuel = t.attempts + (fuel + 1) := by omega
      have h2 : t.delays + 1 + (fuel - 1) = t.delays + (fuel + 1 - 1) := by omega
      have h3 : t.sleptSeconds + RETRY_DELAY_ACTIVE_MOBILITY +
          (fuel - 1) * RETRY_DELAY_ACTIVE_MOBILITY =
          t.sleptSeconds + (fuel + 1 - 1) * RETRY_DELAY_ACTIVE_MOBILITY := by
        simp only [RETRY_DELAY_ACTIVE_MOBILITY]
        omega
      rw [h1, h2, h3]

theorem goatRoutingLoop_skip202 (resp : Nat → HttpResponse) (n : Nat) :
    ∀ fuel i t k, fuel + i = n → i ≤ k → k < n →
      (∀ j, i ≤ j → j < k → (resp j).status_code = 202) →
      goatRoutingLoop resp n fuel i t =
        goatRoutingLoop resp n (fuel - (k - i)) k
          ⟨t.attempts + (k - i), t.delays + (k - i),
           t.sleptSeconds + (k - i) * RETRY_DELAY_ACTIVE_MOBILITY⟩ := by
  intro fuel
  induction fuel with
  | zero => intro i t k hfi hik hk h202; omega
  | succ fuel ih =>
    intro i t k hfi hik hk h202
    by_cases hik' : i = k
    · subst hik'
      simp
    · have hlt : i < k := by omega
      conv_lhs => simp only [goatRoutingLoop]
      rw [if_pos (h202 i le_rfl hlt), if_neg (show ¬i = n - 1 by omega)]
      rw [ih (i + 1) _ k (by omega) (by omega) hk
        (fun j hj hjk => h202 j (by omega) hjk)]
      have h0 : fuel - (k - (i + 1)) = fuel + 1 - (k - i) := by omega
      have h1 : t.attempts + 1 + (k - (i + 1)) = t.attempts + (k - i) := by omega
      have h2 : t.delays + 1 + (k - (i + 1)) = t.delays + (k - i) := by omega
      have h3 : t.sleptSeconds + RETRY_DELAY_ACTIVE_MOBILITY +
          (k - (i + 1)) * RETRY_DELAY_ACTIVE_MOBILITY =
          t.sleptSeconds + (k - i) * RETRY_DELAY_ACTIVE_MOBILITY := by
        simp only [RETRY_DELAY_ACTIVE_MOBILITY]
        omega
      rw [h0, h1, h2, h3]

theorem goatRoutingCall_all202 (resp : Nat → HttpResponse)
    (h : ∀ i, i < 5 → (resp i).status_code = 202) :
    goatRoutingCall resp =
      (.error (.routingEndpoint
        "Error while calling the routing endpoint: GOAT routing endpoint took too long to process request."),
       ⟨5, 4, 8⟩) := by
  have := goatRoutingLoop_all202 resp NUM_RETRIES_ACTIVE_MOBILITY
    (fun j hj => h j hj) NUM_RETRIES_ACTIVE_MOBILITY 0 ⟨0, 0, 0⟩ rfl (by decide)
  rw [goatRoutingCall, this]
  rfl

theorem goatRoutingCall_first201 (resp : Nat → HttpResponse) (k : Nat)
    (hk : k < 5) (h202 : ∀ i, i < k → (resp i).status_code = 202)
    (h201 : (resp k).status_code = 201) :
    goatRoutingCall resp = (.ok (), ⟨k + 1, k, k * 2⟩) := by
  have hskip := goatRoutingLoop_skip202 resp NUM_RETRIES_ACTIVE_MOBILITY
    NUM_RETRIES_ACTIVE_MOBILITY 0 ⟨0, 0, 0⟩ k
    rfl (Nat.zero_le k) hk (fun j _ hjk => h202 j hjk)
  obtain ⟨f, hf⟩ : ∃ f, NUM_RETRIES_ACTIVE_MOBILITY - (k - 0) = f + 1 :=
    ⟨NUM_RETRIES_ACTIVE_MOBILITY - (k - 0) - 1,
     by simp only [NUM_RETRIES_ACTIVE_MOBILITY]; omega⟩
  rw [goatRoutingCall, hskip, hf]
  simp only [goatRoutingLoop]
  rw [if_neg (by rw [h201]; decide), if_pos h201]
  have hki : k - 0 = k := by omega
  simp only [hki, Nat.zero_add]
  rfl

theorem goatRoutingCall_firstError (resp : Nat → HttpResponse) (k : Nat)
    (hk : k < 5) (h202 : ∀ i, i < k → (resp i).status_code = 202)
    (hn202 : (resp k).status_code ≠ 202) (hn201 : (resp k).status_code ≠ 201) :
    goatRoutingCall resp =
      (.error (.routingEndpoint
        ("Error while calling the routing endpoint: " ++ (resp k).text)),
       ⟨k + 1, k, k * 2⟩) := by
  have hskip := goatRoutingLoop_skip202 resp NUM_RETRIES_ACTIVE_MOBILITY
    NUM_RETRIES_ACTIVE_MOBILITY 0 ⟨0, 0, 0⟩ k
    rfl (Nat.zero_le k) hk (fun j _ hjk => h202 j hjk)
  obtain ⟨f, hf⟩ : ∃ f, NUM_RETRIES_ACTIVE_MOBILITY - (k - 0) = f + 1 :=
    ⟨NUM_RETRIES_ACTIVE_MOBILITY - (k - 0) - 1,
     by simp only [NUM_RETRIES_ACTIVE_MOBILITY]; omega⟩
  rw [goatRoutingCall, hskip, hf]
  simp only [goatRoutingLoop]
  rw [if_neg hn202, if_neg hn201]
  have hki : k - 0 = k := by omega
  simp only [hki, Nat.zero_add]
  rfl

/-- C4: against the GOAT routing service, the client retries a `202` with a
fixed 2-second delay within a budget of 5 attempts, a `202` on the 5th
attempt being a timeout failure; a `201` stops the retries with success; any
other status fails immediately; every non-success outcome is wrapped into a
`RoutingEndpointError` carrying the proximate cause. -/
theorem C4_routing_endpoint_retry (resp : Nat → HttpResponse) :
    ((∀ i, i < 5 → (resp i).status_code = 202) →
      goatRoutingCall resp =
        (.error (.routingEndpoint
          "Error while calling the routing endpoint: GOAT routing endpoint took too long to process request."),
         ⟨5, 4, 8⟩)) ∧
    (∀ k, k < 5 → (∀ i, i < k → (resp i).status_code = 202) →
      (resp k).status_code = 201 →
      goatRoutingCall resp = (.ok (), ⟨k + 1, k, k * 2⟩)) ∧
    (∀ k, k < 5 → (∀ i, i < k → (resp i).status_code = 202) →
      (resp k).status_code ≠ 202 → (resp k).status_code ≠ 201 →
      goatRoutingCall resp =
        (.error (.routingEndpoint
          ("Error while calling the routing endpoint: " ++ (resp k).text)),
         ⟨k + 1, k, k * 2⟩)) :=
  ⟨fun h => goatRoutingCall_all202 resp h,
   fun k hk h202 h201 => goatRoutingCall_first201 resp k hk h202 h201,
   fun k hk h202 hn202 hn201 => goatRoutingCall_firstError resp k hk h202 hn202 hn201⟩

/-- A backend that answers `202` on every attempt. -/
def respAll202 : Nat → HttpResponse :=
  fun _ => { status_code := 202, content := [], text := "" }

/-- Witness for C3 at the all-202 backend: exactly 10 attempts, 9 delays,
18 seconds slept, and the wrapped timeout error. -/
theorem C3_witness :
    r5Call respAll202 =
      (.error (.r5Endpoint
        "Error while calling the R5 endpoint: R5 engine took too long to process request."),
       ⟨10, 9, 18⟩) :=
  (C3_r5_endpoint_retry respAll202).1 (fun _ _ => rfl)

/-- Witness for C4 at the all-202 backend: exactly 5 attempts, 4 delays,
8 seconds slept, and the wrapped timeout error. -/
theorem C4_witness :
    goatRoutingCall respAll202 =
      (.error (.routingEndpoint
        "Error while calling the routing endpoint: GOAT routing endpoint took too long to process request."),
       ⟨5, 4, 8⟩) :=
  (C4_routing_endpoint_retry respAll202).1 (fun _ _ => rfl)

/-! ## Grid decoding and contour extraction

`decode_r5_grid` lives in `src/utils.py` and `generate_jsolines` in
`src/jsoline.py`; neither file is part of the sources at hand, only their
callers in `src/crud/crud_isochrone.py` are.  They are therefore modelled
from the specification. -/

/-- The decoded travel-time surface: origin (west, north in raster cell
units), zoom level, width × height cell extent and 1..K bands of per-cell
arrival values. -/
structure TravelTimeSurface where
  zoom : Int
  west : Int
  north : Int
  width : Nat
  height : Nat
  bands : List (List Int)
deriving DecidableEq, Repr

/-- Row-major delta decoding of one band: each cell is the previous cell's
decoded value plus the delta read from the stream; the first cell decodes
against an implicit zero predecessor. -/
def deltaDecode : List Int → Int → List Int
  | [], _ => []
  | d :: ds, prev => (prev + d) :: deltaDecode ds (prev + d)

/-- Split the body of the payload into `k` bands of `cells` values each and
delta-decode every band. -/
def decodeBands (k : Nat) (cells : Nat) (data : List Int) : List (List Int) :=
  match k with
  | 0 => []
  | k + 1 => deltaDecode (data.take cells) 0 :: decodeBands k cells (data.drop cells)

/-- Modelled from the spec: `decode_r5_grid` of `src/utils.py` is not under
src/.  Per spec §4.4 the payload starts with a fixed-size header (format,
version, zoom, west/north origin, width, height, band count), each band is
width × height row-major delta-coded signed integers, and decoding must fail
with a structural error — not silently truncate — if the declared
width × height × band-count does not match the remaining length. -/
def decode_r5_grid (data : List Int) : Except String TravelTimeSurface :=
  match data with
  | _fmt :: _version :: zoom :: west :: north :: width :: height :: nBands :: rest =>
    if 0 ≤ width ∧ 0 ≤ height ∧ 0 ≤ nBands then
      if rest.length = width.toNat * height.toNat * nBands.toNat then
        .ok ⟨zoom, west, north, width.toNat, height.toNat,
             decodeBands nBands.toNat (width.toNat * height.toNat) rest⟩
      else .error "grid data length does not match declared dimensions"
    else .error "invalid grid header"
  | _ => .error "incomplete grid header"

/-- `decode_r5_grid` applied to the `result` variable of
`CRUDIsochronePT.isochrone`, which is `None` when the retry loop falls
through without a `200` (python then fails inside the same `try` block). -/
def decodeR5Result (result : Option (List Int)) :
    Except String TravelTimeSurface :=
  match result with
  | none => .error "grid data is not available"
  | some data => decode_r5_grid data

/-- The isochrone geometry produced by `generate_jsolines`; the writer
(`write_isochrone_result`) reads the `incremental` frame's `geometry` (WKT)
and `minute` columns. -/
structure IsochroneShapes where
  incremental : List (String × Int)
deriving DecidableEq, Repr

/-- The decode-and-contour stage of `CRUDIsochronePT.isochrone` (lines
413-429): decode the payload, then run `generate_jsolines(grid,
travel_time=max_traveltime, percentile=5, steps=steps)`; any exception in
either step is wrapped into `R5IsochroneComputeError`.  The boolean records
whether contour computation was attempted. -/
def processR5Grid
    (jsolines : TravelTimeSurface → Int → Nat → Int → Except String IsochroneShapes)
    (max_traveltime steps : Int) (result : Option (List Int)) :
    Except IsoError (TravelTimeSurface × IsochroneShapes) × Bool :=
  match decodeR5Result result with
  | .error e =>
    (.error (.r5IsochroneCompute ("Error while processing R5 isochrone grid: " ++ e)),
     false)
  | .ok grid =>
    match jsolines grid max_traveltime 5 steps with
    | .error e =>
      (.error (.r5IsochroneCompute ("Error while processing R5 isochrone grid: " ++ e)),
       true)
    | .ok shapes => (.ok (grid, shapes), true)

/-- One full backend-then-decode step for a transit starting point: the R5
retry loop (lines 386-411) followed by the decode-and-contour stage (lines
413-429).  The trace carries the HTTP attempts/delays, the boolean whether
contouring was attempted. -/
def ptPointCompute (resp : Nat → HttpResponse)
    (jsolines : TravelTimeSurface → Int → Nat → Int → Except String IsochroneShapes)
    (max_traveltime steps : Int) :
    Except IsoError (TravelTimeSurface × IsochroneShapes) × RetryTrace × Bool :=
  match r5Call resp with
  | (.error e, t) => (.error e, t, false)
  | (.ok result, t) =>
    match processR5Grid jsolines max_traveltime steps result with
    | (r, attempted) => (r, t, attempted)

/-- C5: when the analysis engine returns a malformed (truncated) binary grid
payload — the declared width × height × band-count exceeds the data that
follows the header — the transit per-point computation fails with the
grid-decode error wrapped in `R5IsochroneComputeError`, contour computation
is never attempted on the malformed payload, and the decode failure is not
retried: the HTTP attempt count stays at the k+1 attempts that produced the
`200`. -/
theorem C5_truncated_grid_payload (resp : Nat → HttpResponse)
    (jsolines : TravelTimeSurface → Int → Nat → Int → Except String IsochroneShapes)
    (max_traveltime steps : Int) (k : Nat) (hk : k < 10)
    (h202 : ∀ i, i < k → (resp i).status_code = 202)
    (h200 : (resp k).status_code = 200)
    (htrunc : ∃ fmt version zoom west north width height nBands rest,
      (resp k).content =
        fmt :: version :: zoom :: west :: north :: width :: height :: nBands :: rest ∧
      0 ≤ width ∧ 0 ≤ height ∧ 0 ≤ nBands ∧
      rest.length ≠ width.toNat * height.toNat * nBands.toNat) :
    ptPointCompute resp jsolines max_traveltime steps =
      (.error (.r5IsochroneCompute
        "Error while processing R5 isochrone grid: grid data length does not match declared dimensions"),
       ⟨k + 1, k, k * 2⟩, false) := by
  obtain ⟨fmt, version, zoom, west, north, width, height, nBands, rest,
    hcontent, hw, hh, hb, hlen⟩ := htrunc
  have hdecode : decodeR5Result (some (resp k).content) =
      .error "grid data length does not match declared dimensions" := by
    rw [decodeR5Result, hcontent, decode_r5_grid]
    rw [if_pos ⟨hw, hh, hb⟩, if_neg hlen]
  rw [ptPointCompute, r5Call_first200 resp k hk h202 h200]
  simp only [processR5Grid, hdecode]
  rfl

/-- A backend whose binary payload declares a 2 × 2 single-band grid but
carries only 3 of the 4 cells. -/
def respTruncatedGrid : Nat → HttpResponse :=
  fun _ => { status_code := 200,
             content := [0, 0, 10, 5, 5, 2, 2, 1, 7, 1, 1],
             text := "" }

/-- Pointwise-failing contour oracle used by the C5 witness; it is never
reached. -/
def jsolinesNever :
    TravelTimeSurface → Int → Nat → Int → Except String IsochroneShapes :=
  fun _ _ _ _ => .error "unreachable"

/-- Witness for C5 at a concrete truncated payload. -/
theorem C5_witness :
    ptPointCompute respTruncatedGrid jsolinesNever 30 10 =
      (.error (.r5IsochroneCompute
        "Error while processing R5 isochrone grid: grid data length does not match declared dimensions"),
       ⟨1, 0, 0⟩, false) :=
  C5_truncated_grid_payload respTruncatedGrid jsolinesNever 30 10 0
    (by decide) (fun i hi => absurd hi (Nat.not_lt_zero i)) rfl
    ⟨0, 0, 10, 5, 5, 2, 2, 1, [7, 1, 1], rfl, by decide, by decide, by decide,
     by decide⟩

/-- Modelled from the spec: the cumulative-mode cell classification of the
`generate_jsolines` contour generator (`src/jsoline.py`, not under src/).
Per spec §4.5, for a threshold `t` every cell of the selected percentile band
is classified reachable iff its arrival value is ≤ `t`; the cumulative ring
for `t` encloses exactly these cells.  The result lists the indices of the
reachable cells. -/
def cumulativeReachable (surface : TravelTimeSurface) (percentile : Nat)
    (t : Int) : List Nat :=
  let band := surface.bands.getD percentile []
  (List.range band.length).filter (fun i => decide (band.getD i 0 ≤ t))

/-- C7: for a travel-time surface in cumulative mode, the set of cells
classified reachable at a threshold `ti` is a subset of the set reachable at
any larger threshold `tj`, hence its count is at most the count at `tj`: the
cumulative ring is monotonically non-shrinking as the threshold increases. -/
theorem C7_cumulative_monotone (surface : TravelTimeSurface)
    (percentile : Nat) (ti tj : Int) (hij : ti < tj) :
    (∀ i ∈ cumulativeReachable surface percentile ti,
       i ∈ cumulativeReachable surface percentile tj) ∧
    (cumulativeReachable surface percentile ti).length ≤
      (cumulativeReachable surface percentile tj).length := by
  have hmono : ∀ i : Nat,
      decide ((surface.bands.getD percentile []).getD i 0 ≤ ti) = true →
      decide ((surface.bands.getD percentile []).getD i 0 ≤ tj) = true := by
    intro i hi
    simp only [decide_eq_true_eq] at hi ⊢
    omega
  constructor
  · intro i hi
    simp only [cumulativeReachable, List.mem_filter] at hi ⊢
    exact ⟨hi.1, hmono i hi.2⟩
  · exact (List.monotone_filter_right _ hmono).length_le

/-- Witness for C7 on a concrete 2 × 2 single-band surface with thresholds
2 < 5. -/
theorem C7_witness :
    (∀ i ∈ cumulativeReachable ⟨9, 0, 0, 2, 2, [[1, 5, 3, 99]]⟩ 0 2,
       i ∈ cumulativeReachable ⟨9, 0, 0, 2, 2, [[1, 5, 3, 99]]⟩ 0 5) ∧
    (cumulativeReachable ⟨9, 0, 0, 2, 2, [[1, 5, 3, 99]]⟩ 0 2).length ≤
      (cumulativeReachable ⟨9, 0, 0, 2, 2, [[1, 5, 3, 99]]⟩ 0 5).length :=
  C7_cumulative_monotone ⟨9, 0, 0, 2, 2, [[1, 5, 3, 99]]⟩ 0 2 5 (by decide)

/-! ## Request parameters and the R5 request payload -/

/-- `params.starting_points`: either literal latitude/longitude lists or a
reference to an existing project layer of point geometries
(`layer_project_id`).  The `layerRef` constructor also carries the
coordinates that the layer fetch in `get_lats_lons` returns from the
project layer's table (a database oracle). -/
inductive IsochroneStartingPoints where
  | literal (points : List Point)
  | layerRef (layer_project_id : Nat) (layerPoints : List Point)
deriving DecidableEq, Repr

/-- The xmin/ymin/xmax/ymax values returned by the region-bounds query. -/
structure Box where
  xmin : Int
  ymin : Int
  xmax : Int
  ymax : Int
deriving DecidableEq, Repr

/-- One row of the R5 region mapping table
(`settings.REGION_MAPPING_PT_TABLE`). -/
structure RegionInfo where
  r5_region_id : Nat
  r5_bundle_id : Nat
  r5_host : String
deriving DecidableEq, Repr

/-- The settings the R5 payload reads. -/
structure R5Settings where
  R5_VARIANT_INDEX : Int
  R5_WORKER_VERSION : String
deriving DecidableEq, Repr

/-- `params.decay_function` as read by the payload. -/
structure R5DecayFunction where
  standard_deviation_minutes : Int
  width_minutes : Int
deriving DecidableEq, Repr

/-- `params.time_window` as read by the payload. -/
structure PTTimeWindow where
  weekday_date : String
  from_time : Int
  to_time : Int
deriving DecidableEq, Repr

/-- `params.routing_type` for public transit: access/egress modes and the
list of transit modes. -/
structure PTRoutingType where
  access_mode : String
  egress_mode : String
  mode : List String
deriving DecidableEq, Repr

/-- The public-transit travel cost (`max_traveltime`, `steps`) as read by
`CRUDIsochronePT.isochrone`. -/
structure TravelTimeCostMotorizedMobility where
  max_traveltime : Int
  steps : Int
deriving DecidableEq, Repr

/-- `IIsochronePTNew`: the fields of the transit request read by
`CRUDIsochronePT.isochrone`. -/
structure IIsochronePTNew where
  starting_points : IsochroneStartingPoints
  routing_type : PTRoutingType
  travel_cost : TravelTimeCostMotorizedMobility
  time_window : PTTimeWindow
  decay_function : R5DecayFunction
  bike_speed : Int
  walk_speed : Int
  bike_traffic_stress : Int
  zoom : Int
  max_bike_time : Int
  max_rides : Int
  max_walk_time : Int
  monte_carlo_draws : Int
  percentiles : List Int
  isochrone_type : String
deriving DecidableEq, Repr

/-- The `bounds` object of the R5 payload (lines 363-368): north/south from
the box's ymax/ymin, east/west from xmax/xmin. -/
structure BoundsPayload where
  north : Int
  south : Int
  east : Int
  west : Int
deriving DecidableEq, Repr

/-- The JSON body sent to `{r5_host}/api/analysis` (lines 347-384). -/
structure R5RequestPayload where
  accessModes : String
  transitModes : String
  bikeSpeed : Int
  walkSpeed : Int
  bikeTrafficStress : Int
  date : String
  fromTime : Int
  toTime : Int
  maxTripDurationMinutes : Int
  decayFunction : R5DecayFunction
  bounds : BoundsPayload
  directModes : String
  egressModes : String
  fromLat : Int
  fromLon : Int
  zoom : Int
  maxBikeTime : Int
  maxRides : Int
  maxWalkTime : Int
  monteCarloDraws : Int
  percentiles : List Int
  variantIndex : Int
  workerVersion : String
  regionId : Nat
  projectId : Nat
  bundleId : Nat
deriving DecidableEq, Repr

/-- The region-bounds query of `CRUDIsochronePT.isochrone` (lines 326-344) as
an oracle: `bufferEnvelope p r` stands for the xmin/ymin/xmax/ymax of
`ST_Envelope(ST_Buffer(ST_MakePoint(lon, lat)::geography, r))`, the envelope
of the geodesic buffer of radius `r` metres around `p`, computed by the
external PostGIS collaborator. -/
def regionBounds (bufferEnvelope : Point → Nat → Box) (p : Point) : Box :=
  bufferEnvelope p 100000

/-- Construction of the R5 request payload for one starting point
(src/crud/crud_isochrone.py lines 326-384): the bounds come from the
100 km-buffer envelope of the point, everything else from the request
parameters, the resolved region and the settings. -/
def buildR5RequestPayload (stg : R5Settings)
    (bufferEnvelope : Point → Nat → Box) (region : RegionInfo)
    (params : IIsochronePTNew) (p : Point) : R5RequestPayload :=
  let box := regionBounds bufferEnvelope p
  { accessModes := params.routing_type.access_mode.toUpper
    transitModes := (String.intercalate "," params.routing_type.mode).toUpper
    bikeSpeed := params.bike_speed
    walkSpeed := params.walk_speed
    bikeTrafficStress := params.bike_traffic_stress
    date := params.time_window.weekday_date
    fromTime := params.time_window.from_time
    toTime := params.time_window.to_time
    maxTripDurationMinutes := params.travel_cost.max_traveltime
    decayFunction := params.decay_function
    bounds := { north := box.ymax, south := box.ymin,
                east := box.xmax, west := box.xmin }
    directModes := params.routing_type.access_mode.toUpper
    egressModes := params.routing_type.egress_mode.toUpper
    fromLat := p.lat
    fromLon := p.lon
    zoom := params.zoom
    maxBikeTime := params.max_bike_time
    maxRides := params.max_rides
    maxWalkTime := params.max_walk_time
    monteCarloDraws := params.monte_carlo_draws
    percentiles := params.percentiles
    variantIndex := stg.R5_VARIANT_INDEX
    workerVersion := stg.R5_WORKER_VERSION
    regionId := region.r5_region_id
    projectId := region.r5_region_id
    bundleId := region.r5_bundle_id }

/-- C8: the bounding box sent to the analysis engine is the envelope of the
fixed 100 km geodesic buffer around the starting point, and it depends only
on the point's coordinates: two requests for the same point with different
travel costs, parameters, resolved regions or settings carry the same
bounds. -/
theorem C8_bounds_fixed_100km_buffer (stg stg' : R5Settings)
    (bufferEnvelope : Point → Nat → Box) (region region' : RegionInfo)
    (params params' : IIsochronePTNew) (p : Point) :
    (buildR5RequestPayload stg bufferEnvelope region params p).bounds =
      { north := (bufferEnvelope p 100000).ymax,
        south := (bufferEnvelope p 100000).ymin,
        east := (bufferEnvelope p 100000).xmax,
        west := (bufferEnvelope p 100000).xmin } ∧
    (buildR5RequestPayload stg' bufferEnvelope region' params' p).bounds =
      (buildR5RequestPayload stg bufferEnvelope region params p).bounds :=
  ⟨rfl, rfl⟩

/-! ## Starting-point resolution and the active-mobility pipeline -/

/-- `CRUDIsochroneBase.get_lats_lons` (lines 93-121): when
`layer_project_id` is set, the coordinates are fetched from the referenced
project layer's table and no geofence validation runs; otherwise
`create_layer_starting_points` validates the literal points against the
geofence (raising `OutOfGeofenceError`) and inserts them in batches of 500.
Returns the resolved coordinates, whether the geofence-validation step
executed, and the number of starting-point rows inserted. -/
def get_lats_lons (geo : Point → Bool) (sp : IsochroneStartingPoints) :
    Except IsoError (List Point) × Bool × Nat :=
  match sp with
  | .layerRef _ layerPts => (.ok layerPts, false, 0)
  | .literal pts =>
    match validateStartingPoints geo pts with
    | .error c => (.error (.outOfGeofence c), true, 0)
    | .ok () => (.ok pts, true, pts.length)

/-- `params.travel_cost` of the active-mobility request: a time or a
distance cost (src/schemas/active_mobility.py line 106). -/
inductive TravelCostActiveMobility where
  | time (cost : TravelTimeCostActiveMobility)
  | distance (cost : TravelDistanceCostActiveMobility)
deriving DecidableEq, Repr

/-- `IIsochroneActiveMobility`: the fields read by
`CRUDIsochroneActiveMobility.isochrone`. -/
structure IIsochroneActiveMobility where
  starting_points : IsochroneStartingPoints
  routing_type : String
  travel_cost : TravelCostActiveMobility
  isochrone_type : String
  polygon_difference : Option Bool
deriving DecidableEq, Repr

/-- Instrumentation of one active-mobility request. -/
structure AMTrace where
  geofenceValidated : Bool
  pointsInserted : Nat
  httpAttempts : Nat
  delays : Nat
  layersCreated : Nat
deriving DecidableEq, Repr

/-- `CRUDIsochroneActiveMobility.isochrone` (lines 141-231): resolve the
starting points (with geofence validation for literal points), call the GOAT
routing endpoint with bounded retry, then register the isochrone result
layer and — when the starting points were literal — the starting-point
layer.  The request payload does not influence the embedded control flow;
the HTTP oracle `resp` subsumes it. -/
def amIsochrone (geo : Point → Bool) (resp : Nat → HttpResponse)
    (params : IIsochroneActiveMobility) : Except IsoError Unit × AMTrace :=
  match get_lats_lons geo params.starting_points with
  | (.error e, gv, ins) => (.error e, ⟨gv, ins, 0, 0, 0⟩)
  | (.ok _pts, gv, ins) =>
    match goatRoutingCall resp with
    | (.error e, t) => (.error e, ⟨gv, ins, t.attempts, t.delays, 0⟩)
    | (.ok (), t) =>
      let layers :=
        match params.starting_points with
        | .literal _ => 2
        | .layerRef _ _ => 1
      (.ok (), ⟨gv, ins, t.attempts, t.delays, layers⟩)

theorem goatRoutingLoop_attempts_le (resp : Nat → HttpResponse) (n : Nat) :
    ∀ fuel i t, t.attempts ≤ (goatRoutingLoop resp n fuel i t).2.attempts := by
  intro fuel
  induction fuel with
  | zero => intro i t; exact le_rfl
  | succ fuel ih =>
    intro i t
    simp only [goatRoutingLoop]
    by_cases h202 : (resp i).status_code = 202
    · rw [if_pos h202]
      by_cases hlast : i = n - 1
      · rw [if_pos hlast]
        exact Nat.le_succ _
      · rw [if_neg hlast]
        exact le_trans (Nat.le_succ _) (ih (i + 1)
          ⟨t.attempts + 1, t.delays + 1,
           t.sleptSeconds + RETRY_DELAY_ACTIVE_MOBILITY⟩)
    · rw [if_neg h202]
      by_cases h201 : (resp i).status_code = 201
      · rw [if_pos h201]
        exact Nat.le_succ _
      · rw [if_neg h201]
        exact Nat.le_succ _

theorem goatRoutingLoop_attempts_one_le (resp : Nat → HttpResponse)
    (n fuel i : Nat) (t : RetryTrace) (h : 1 ≤ fuel) :
    t.attempts + 1 ≤ (goatRoutingLoop resp n fuel i t).2.attempts := by
  obtain ⟨f, rfl⟩ : ∃ f, fuel = f + 1 := ⟨fuel - 1, by omega⟩
  simp only [goatRoutingLoop]
  by_cases h202 : (resp i).status_code = 202
  · rw [if_pos h202]
    by_cases hlast : i = n - 1
    · rw [if_pos hlast]
    · rw [if_neg hlast]
      exact goatRoutingLoop_attempts_le resp n f (i + 1)
        ⟨t.attempts + 1, t.delays + 1,
         t.sleptSeconds + RETRY_DELAY_ACTIVE_MOBILITY⟩
  · rw [if_neg h202]
    by_cases h201 : (resp i).status_code = 201
    · rw [if_pos h201]
    · rw [if_neg h201]

theorem goatRoutingCall_trace (resp : Nat → HttpResponse) :
    (goatRoutingCall resp).2 =
      (goatRoutingLoop resp NUM_RETRIES_ACTIVE_MOBILITY
        NUM_RETRIES_ACTIVE_MOBILITY 0 ⟨0, 0, 0⟩).2 := by
  rw [goatRoutingCall]
  rcases hr : goatRoutingLoop resp NUM_RETRIES_ACTIVE_MOBILITY
    NUM_RETRIES_ACTIVE_MOBILITY 0 ⟨0, 0, 0⟩ with ⟨fst, snd⟩
  cases fst with
  | error m => rfl
  | ok u => cases u; rfl

theorem goatRoutingCall_attempts_pos (resp : Nat → HttpResponse) :
    1 ≤ (goatRoutingCall resp).2.attempts := by
  rw [goatRoutingCall_trace]
  have h := goatRoutingLoop_attempts_one_le resp NUM_RETRIES_ACTIVE_MOBILITY
    NUM_RETRIES_ACTIVE_MOBILITY 0 ⟨0, 0, 0⟩ (by decide)
  simpa using h

theorem goatRoutingCall_error_shape (resp : Nat → HttpResponse)
    (e : IsoError) (h : (goatRoutingCall resp).1 = .error e) :
    ∃ m, e = .routingEndpoint m := by
  rw [goatRoutingCall] at h
  rcases hr : goatRoutingLoop resp NUM_RETRIES_ACTIVE_MOBILITY
    NUM_RETRIES_ACTIVE_MOBILITY 0 ⟨0, 0, 0⟩ with ⟨fst, snd⟩
  rw [hr] at h
  cases fst with
  | error m =>
    simp only [Except.error.injEq] at h
    exact ⟨_, h.symm⟩
  | ok u => cases u; simp at h

/-- C9: when the starting points are referenced by an existing layer
(`layer_project_id` set) instead of literal coordinates, no geofence
validation is performed, the pipeline proceeds to the routing backend (at
least one HTTP attempt is issued), and an out-of-geofence failure is never
raised for the request. -/
theorem C9_layer_reference_skips_geofence (geo : Point → Bool)
    (resp : Nat → HttpResponse) (params : IIsochroneActiveMobility)
    (lid : Nat) (layerPts : List Point)
    (h : params.starting_points = .layerRef lid layerPts) :
    (amIsochrone geo resp params).2.geofenceValidated = false ∧
    1 ≤ (amIsochrone geo resp params).2.httpAttempts ∧
    ∀ c, (amIsochrone geo resp params).1 ≠ .error (.outOfGeofence c) := by
  have hpos := goatRoutingCall_attempts_pos resp
  unfold amIsochrone
  rw [h]
  simp only [get_lats_lons]
  rcases hc : goatRoutingCall resp with ⟨res, t⟩
  rw [hc] at hpos
  cases res with
  | error e =>
    obtain ⟨m, rfl⟩ := goatRoutingCall_error_shape resp e (by rw [hc])
    refine ⟨rfl, by simpa using hpos, ?_⟩
    intro c
    simp
  | ok u =>
    cases u
    refine ⟨rfl, by simpa using hpos, ?_⟩
    intro c
    simp

/-- A concrete layer-referenced active-mobility request. -/
def amParamsLayerRef : IIsochroneActiveMobility :=
  { starting_points := .layerRef 7 [⟨52, 13⟩],
    routing_type := "walking",
    travel_cost := .time ⟨30, 10, 5⟩,
    isochrone_type := "polygon",
    polygon_difference := some true }

/-- Witness for C9 at a concrete layer-referenced request. -/
theorem C9_witness :
    (amIsochrone geoNonneg respAll202 amParamsLayerRef).2.geofenceValidated = false ∧
    1 ≤ (amIsochrone geoNonneg respAll202 amParamsLayerRef).2.httpAttempts ∧
    ∀ c, (amIsochrone geoNonneg respAll202 amParamsLayerRef).1 ≠
      .error (.outOfGeofence c) :=
  C9_layer_reference_skips_geofence geoNonneg respAll202 amParamsLayerRef
    7 [⟨52, 13⟩] rfl

/-! ## The public-transit per-point pipeline -/

/-- `CRUDIsochronePT.write_isochrone_result` (lines 255-275): for
`isochrone_type == "polygon"` one row per entry of the `incremental` shapes
frame is inserted; for any other type the body is `pass` and nothing is
written. -/
def write_isochrone_result_rows (isochrone_type : String)
    (shapes : IsochroneShapes) : Nat :=
  if isochrone_type = "polygon" then shapes.incremental.length else 0

/-- `create_feature_layer_tool` calls per completed starting point (lines
445-455): the isochrone result layer always, plus the starting-point layer
when the starting points were literal. -/
def layersPerPoint (sp : IsochroneStartingPoints) : Nat :=
  match sp with
  | .literal _ => 2
  | .layerRef _ _ => 1

/-- Instrumentation of one public-transit request. -/
structure PTTrace where
  geofenceValidated : Bool
  pointsInserted : Nat
  httpAttempts : Nat
  delays : Nat
  contourAttempts : Nat
  resultWrites : List Nat
  layersCreated : Nat
deriving DecidableEq, Repr

/-- One iteration of the per-starting-point loop of
`CRUDIsochronePT.isochrone` up to the decode-and-contour stage: resolve the
region for the point, build the R5 payload (with the 100 km-buffer bounds)
and run the retry loop plus grid processing.  The source reads the
coordinates for the region lookup from `params.starting_points` and those
for the bounds and origin from the fetched lists; for literal starting
points — the only ones this loop is exercised with in the theorems below —
they coincide. -/
def ptStep (stg : R5Settings) (regionFor : Point → RegionInfo)
    (bufferEnvelope : Point → Nat → Box)
    (resp : R5RequestPayload → Nat → HttpResponse)
    (jsolines : TravelTimeSurface → Int → Nat → Int → Except String IsochroneShapes)
    (params : IIsochronePTNew) (p : Point) :
    Except IsoError (TravelTimeSurface × IsochroneShapes) × RetryTrace × Bool :=
  ptPointCompute
    (resp (buildR5RequestPayload stg bufferEnvelope (regionFor p) params p))
    jsolines params.travel_cost.max_traveltime params.travel_cost.steps

/-- The per-starting-point loop of `CRUDIsochronePT.isochrone` (lines
304-455): each point in turn is routed, decoded, contoured, its result rows
written via `write_isochrone_result` and its layers registered, before the
next point is processed; the first failing stage aborts the whole loop with
its error, leaving the writes already accumulated in the trace. -/
def ptLoop (stg : R5Settings) (regionFor : Point → RegionInfo)
    (bufferEnvelope : Point → Nat → Box)
    (resp : R5RequestPayload → Nat → HttpResponse)
    (jsolines : TravelTimeSurface → Int → Nat → Int → Except String IsochroneShapes)
    (params : IIsochronePTNew) :
    List Point → PTTrace → Except IsoError Unit × PTTrace
  | [], t => (.ok (), t)
  | p :: rest, t =>
    match ptStep stg regionFor bufferEnvelope resp jsolines params p with
    | (.error e, rt, ca) =>
      (.error e,
       { t with httpAttempts := t.httpAttempts + rt.attempts,
                delays := t.delays + rt.delays,
                contourAttempts := t.contourAttempts + (if ca then 1 else 0) })
    | (.ok (_grid, shapes), rt, ca) =>
      ptLoop stg regionFor bufferEnvelope resp jsolines params rest
        { t with httpAttempts := t.httpAttempts + rt.attempts,
                 delays := t.delays + rt.delays,
                 contourAttempts := t.contourAttempts + (if ca then 1 else 0),
                 resultWrites := t.resultWrites ++
                   [write_isochrone_result_rows params.isochrone_type shapes],
                 layersCreated := t.layersCreated +
                   layersPerPoint params.starting_points }

/-- `CRUDIsochronePT.isochrone` (lines 278-461): resolve the starting points
(with geofence validation for literal points, lines 285-288 via
`get_lats_lons`), then run the per-point loop. -/
def ptIsochrone (geo : Point → Bool) (stg : R5Settings)
    (regionFor : Point → RegionInfo) (bufferEnvelope : Point → Nat → Box)
    (resp : R5RequestPayload → Nat → HttpResponse)
    (jsolines : TravelTimeSurface → Int → Nat → Int → Except String IsochroneShapes)
    (params : IIsochronePTNew) : Except IsoError Unit × PTTrace :=
  match get_lats_lons geo params.starting_points with
  | (.error e, gv, ins) => (.error e, ⟨gv, ins, 0, 0, 0, [], 0⟩)
  | (.ok pts, gv, ins) =>
    ptLoop stg regionFor bufferEnvelope resp jsolines params pts
      ⟨gv, ins, 0, 0, 0, [], 0⟩

theorem countNotIntersecting_le_length (geo : Point → Bool)
    (pts : List Point) : countNotIntersecting geo pts ≤ pts.length :=
  List.length_filter_le _ _

/-- C6: a transit request whose literal starting points include at least one
point outside the geofence fails with `OutOfGeofenceError` before any HTTP
call to the routing backend is issued — zero HTTP attempts, no contouring,
no writes — and for a single starting point the reported violation count
is 1. -/
theorem C6_geofence_failure_before_backend (geo : Point → Bool)
    (stg : R5Settings) (regionFor : Point → RegionInfo)
    (bufferEnvelope : Point → Nat → Box)
    (resp : R5RequestPayload → Nat → HttpResponse)
    (jsolines : TravelTimeSurface → Int → Nat → Int → Except String IsochroneShapes)
    (params : IIsochronePTNew) (pts : List Point)
    (hsp : params.starting_points = .literal pts)
    (hviol : 0 < countNotIntersecting geo pts) :
    ∃ c, ptIsochrone geo stg regionFor bufferEnvelope resp jsolines params =
        (.error (.outOfGeofence c), ⟨true, 0, 0, 0, 0, [], 0⟩) ∧
      0 < c ∧ (pts.length = 1 → c = 1) := by
  cases hv : validateStartingPoints geo pts with
  | ok u =>
    cases u
    have := (validateStartingPoints_spec geo pts).1.mp hv
    omega
  | error c =>
    obtain ⟨hc0, hcle, -⟩ := (validateStartingPoints_spec geo pts).2 c hv
    refine ⟨c, ?_, hc0, ?_⟩
    · unfold ptIsochrone
      rw [hsp]
      simp only [get_lats_lons, hv]
    · intro hlen
      have hub := countNotIntersecting_le_length geo pts
      omega

/-- Concrete oracles for the pipeline witnesses. -/
def stgTest : R5Settings := ⟨0, "v7.0"⟩
def regionForTest : Point → RegionInfo := fun _ => ⟨1, 2, "r5host"⟩
def bufferEnvelopeTest : Point → Nat → Box := fun _ _ => ⟨0, 0, 0, 0⟩
def respPT202 : R5RequestPayload → Nat → HttpResponse :=
  fun _ _ => { status_code := 202, content := [], text := "" }

/-- A transit request with a single literal starting point at longitude -1,
outside the `geoNonneg` geofence. -/
def ptParamsOneBad : IIsochronePTNew :=
  { starting_points := .literal [⟨0, -1⟩],
    routing_type := ⟨"walk", "walk", ["bus", "rail"]⟩,
    travel_cost := ⟨30, 10⟩,
    time_window := ⟨"2024-05-06", 25200, 32400⟩,
    decay_function := ⟨12, 10⟩,
    bike_speed := 15, walk_speed := 5, bike_traffic_stress := 4,
    zoom := 9, max_bike_time := 20, max_rides := 4, max_walk_time := 20,
    monte_carlo_draws := 200, percentiles := [5],
    isochrone_type := "polygon" }

/-- Witness for C6: the single out-of-geofence point yields the error with
count 1 and an untouched backend. -/
theorem C6_witness :
    ∃ c, ptIsochrone geoNonneg stgTest regionForTest bufferEnvelopeTest
        respPT202 jsolinesNever ptParamsOneBad =
        (.error (.outOfGeofence c), ⟨true, 0, 0, 0, 0, [], 0⟩) ∧
      0 < c ∧ ([(⟨0, -1⟩ : Point)].length = 1 → c = 1) :=
  C6_geofence_failure_before_backend geoNonneg stgTest regionForTest
    bufferEnvelopeTest respPT202 jsolinesNever ptParamsOneBad
    [⟨0, -1⟩] rfl (by decide)

theorem ptLoop_ok_append (stg : R5Settings) (regionFor : Point → RegionInfo)
    (bufferEnvelope : Point → Nat → Box)
    (resp : R5RequestPayload → Nat → HttpResponse)
    (jsolines : TravelTimeSurface → Int → Nat → Int → Except String IsochroneShapes)
    (params : IIsochronePTNew) (done : List Point) :
    ∀ (l : List Point) (t : PTTrace),
      (∀ p ∈ done, ∃ g s rt ca,
        ptStep stg regionFor bufferEnvelope resp jsolines params p =
          (.ok (g, s), rt, ca)) →
      ∃ t', ptLoop stg regionFor bufferEnvelope resp jsolines params
          (done ++ l) t =
          ptLoop stg regionFor bufferEnvelope resp jsolines params l t' ∧
        (∃ ws, t'.resultWrites = t.resultWrites ++ ws ∧
          ws.length = done.length) ∧
        t'.layersCreated = t.layersCreated +
          layersPerPoint params.starting_points * done.length := by
  induction done with
  | nil =>
    intro l t _
    exact ⟨t, by simp, ⟨[], by simp, rfl⟩, by simp⟩
  | cons p done ih =>
    intro l t hok
    obtain ⟨g, s, rt, ca, hstep⟩ := hok p (List.mem_cons_self p done)
    obtain ⟨t', heq, ⟨ws, hws, hwslen⟩, hlayers⟩ := ih l
      { t with httpAttempts := t.httpAttempts + rt.attempts,
               delays := t.delays + rt.delays,
               contourAttempts := t.contourAttempts + (if ca then 1 else 0),
               resultWrites := t.resultWrites ++
                 [write_isochrone_result_rows params.isochrone_type s],
               layersCreated := t.layersCreated +
                 layersPerPoint params.starting_points }
      (fun q hq => hok q (List.mem_cons_of_mem p hq))
    refine ⟨t', ?_, ?_, ?_⟩
    · rw [List.cons_append]
      simp only [ptLoop, hstep]
      exact heq
    · refine ⟨write_isochrone_result_rows params.isochrone_type s :: ws, ?_, ?_⟩
      · rw [hws]
        simp
      · simp only [List.length_cons, hwslen]
    · rw [hlayers]
      simp only [List.length_cons, Nat.mul_succ]
      omega

theorem ptLoop_error_head (stg : R5Settings) (regionFor : Point → RegionInfo)
    (bufferEnvelope : Point → Nat → Box)
    (resp : R5RequestPayload → Nat → HttpResponse)
    (jsolines : TravelTimeSurface → Int → Nat → Int → Except String IsochroneShapes)
    (params : IIsochronePTNew) (p : Point) (rest : List Point) (t : PTTrace)
    (e : IsoError) (rt : RetryTrace) (ca : Bool)
    (hstep : ptStep stg regionFor bufferEnvelope resp jsolines params p =
      (.error e, rt, ca)) :
    ptLoop stg regionFor bufferEnvelope resp jsolines params (p :: rest) t =
      (.error e,
       { t with httpAttempts := t.httpAttempts + rt.attempts,
                delays := t.delays + rt.delays,
                contourAttempts := t.contourAttempts +
                  (if ca then 1 else 0) }) := by
  simp only [ptLoop, hstep]

/-- C10: in the transit per-starting-point loop, every completed point's
polygon rows are written and its layers registered before the next point is
processed, so when a later point fails the rows and layers of the earlier
points are already persisted and the aborting error performs no compensating
rollback: the failure trace still carries one result write per completed
point and both layer registrations per completed point. -/
theorem C10_earlier_writes_persist (geo : Point → Bool) (stg : R5Settings)
    (regionFor : Point → RegionInfo) (bufferEnvelope : Point → Nat → Box)
    (resp : R5RequestPayload → Nat → HttpResponse)
    (jsolines : TravelTimeSurface → Int → Nat → Int → Except String IsochroneShapes)
    (params : IIsochronePTNew) (done : List Point) (pfail : Point)
    (rest : List Point)
    (hsp : params.starting_points = .literal (done ++ pfail :: rest))
    (hgeo : countNotIntersecting geo (done ++ pfail :: rest) = 0)
    (hok : ∀ p ∈ done, ∃ g s rt ca,
      ptStep stg regionFor bufferEnvelope resp jsolines params p =
        (.ok (g, s), rt, ca))
    (hfail : ∃ e rt ca,
      ptStep stg regionFor bufferEnvelope resp jsolines params pfail =
        (.error e, rt, ca)) :
    ∃ e t, ptIsochrone geo stg regionFor bufferEnvelope resp jsolines params =
        (.error e, t) ∧
      t.resultWrites.length = done.length ∧
      t.layersCreated = 2 * done.length := by
  obtain ⟨e, rt, ca, hstep⟩ := hfail
  have hvok : validateStartingPoints geo (done ++ pfail :: rest) = .ok () :=
    (validateStartingPoints_spec geo _).1.mpr hgeo
  obtain ⟨t', heq, ⟨ws, hws, hwslen⟩, hlayers⟩ :=
    ptLoop_ok_append stg regionFor bufferEnvelope resp jsolines params done
      (pfail :: rest)
      ⟨true, (done ++ pfail :: rest).length, 0, 0, 0, [], 0⟩ hok
  have hfl := ptLoop_error_head stg regionFor bufferEnvelope resp jsolines
    params pfail rest t' e rt ca hstep
  have hall : ptIsochrone geo stg regionFor bufferEnvelope resp jsolines
      params =
      (.error e,
       { t' with httpAttempts := t'.httpAttempts + rt.attempts,
                 delays := t'.delays + rt.delays,
                 contourAttempts := t'.contourAttempts +
                   (if ca then 1 else 0) }) := by
    unfold ptIsochrone
    rw [hsp]
    simp only [get_lats_lons, hvok]
    rw [heq, hfl]
  refine ⟨e, _, hall, ?_, ?_⟩
  · show t'.resultWrites.length = done.length
    rw [hws]
    simp [hwslen]
  · show t'.layersCreated = 2 * done.length
    rw [hlayers, hsp]
    simp [layersPerPoint]

/-- A geofence that accepts every point. -/
def geoAll : Point → Bool := fun _ => true

/-- A transit request with two literal starting points. -/
def ptParamsTwoPoints : IIsochronePTNew :=
  { starting_points := .literal [⟨1, 0⟩, ⟨2, 0⟩],
    routing_type := ⟨"walk", "walk", ["bus", "rail"]⟩,
    travel_cost := ⟨30, 10⟩,
    time_window := ⟨"2024-05-06", 25200, 32400⟩,
    decay_function := ⟨12, 10⟩,
    bike_speed := 15, walk_speed := 5, bike_traffic_stress := 4,
    zoom := 9, max_bike_time := 20, max_rides := 4, max_walk_time := 20,
    monte_carlo_draws := 200, percentiles := [5],
    isochrone_type := "polygon" }

/-- A backend that succeeds with a well-formed 1 × 1 grid for the first
starting point (latitude 1) and fails with a 500 for any other point. -/
def respC10 : R5RequestPayload → Nat → HttpResponse :=
  fun payload _ =>
    if payload.fromLat = 1 then
      { status_code := 200, content := [0, 0, 10, 0, 0, 1, 1, 1, 5], text := "" }
    else { status_code := 500, content := [], text := "internal error" }

/-- A contour oracle returning one fixed polygon ring. -/
def jsolinesConst :
    TravelTimeSurface → Int → Nat → Int → Except String IsochroneShapes :=
  fun _ _ _ _ => .ok ⟨[("POLYGON ((0 0, 0 1, 1 1, 0 0))", 5)]⟩

/-- Witness for C10: the first point completes (one write, two layer
registrations), the second fails at the backend; the failure trace keeps the
first point's write and layers. -/
theorem C10_witness :
    ∃ e t, ptIsochrone geoAll stgTest regionForTest bufferEnvelopeTest
        respC10 jsolinesConst ptParamsTwoPoints = (.error e, t) ∧
      t.resultWrites.length = 1 ∧
      t.layersCreated = 2 :=
  C10_earlier_writes_persist geoAll stgTest regionForTest bufferEnvelopeTest
    respC10 jsolinesConst ptParamsTwoPoints [⟨1, 0⟩] ⟨2, 0⟩ [] rfl (by decide)
    (by
      intro p hp
      rw [List.mem_singleton] at hp
      subst hp
      exact ⟨⟨10, 0, 0, 1, 1, [[5]]⟩,
        ⟨[("POLYGON ((0 0, 0 1, 1 1, 0 0))", 5)]⟩, ⟨1, 0, 0⟩, true, rfl⟩)
    ⟨.r5Endpoint "Error while calling the R5 endpoint: internal error",
     ⟨1, 0, 0⟩, false, rfl⟩

end GoatCore
